import Mathlib

/-!
Verification of the API-gateway request-processing core of the
ecommerce-microservices repository: the middleware pipeline (CORS,
request id, cancellation, timeout, rate limiting, authentication,
authorization), the gRPC-to-HTTP error translation, pagination
parameter normalization, registration forwarding, and the process
lifecycle, shallowly embedded from the Go sources.
-/

set_option autoImplicit false

namespace Gateway

/-! ## gRPC status codes and HTTP translation
Embeds `grpcCodeToHTTP` and `writeJSONErrorFromGRPC` from
services/ApiGateway/internal/handlers/response.go. -/

/-- The fixed enumeration of gRPC status codes (google.golang.org/grpc/codes). -/
inductive Code where
  | ok
  | canceled
  | unknown
  | invalidArgument
  | deadlineExceeded
  | notFound
  | alreadyExists
  | permissionDenied
  | resourceExhausted
  | failedPrecondition
  | aborted
  | outOfRange
  | unimplemented
  | internal
  | unavailable
  | dataLoss
  | unauthenticated
  deriving DecidableEq, Repr

/-- net/http `StatusText` restricted to the codes this gateway emits. -/
def statusText (s : Nat) : String :=
  if s = 200 then "OK"
  else if s = 201 then "Created"
  else if s = 204 then "No Content"
  else if s = 400 then "Bad Request"
  else if s = 401 then "Unauthorized"
  else if s = 403 then "Forbidden"
  else if s = 404 then "Not Found"
  else if s = 408 then "Request Timeout"
  else if s = 409 then "Conflict"
  else if s = 429 then "Too Many Requests"
  else if s = 500 then "Internal Server Error"
  else if s = 501 then "Not Implemented"
  else if s = 503 then "Service Unavailable"
  else if s = 504 then "Gateway Timeout"
  else ""

/-- `grpcCodeToHTTP` from response.go: the switch mapping gRPC codes to
HTTP statuses, with default 500. -/
def grpcCodeToHTTP (code : Code) : Nat :=
  match code with
  | .invalidArgument => 400
  | .notFound => 404
  | .alreadyExists => 409
  | .permissionDenied => 403
  | .unauthenticated => 401
  | .resourceExhausted => 429
  | .unimplemented => 501
  | .unavailable => 503
  | .deadlineExceeded => 504
  | .canceled => 408
  | _ => 500

/-- A Go error as seen by `writeJSONErrorFromGRPC`: either a gRPC status
error carrying a code and message (`status.FromError` succeeds), or a
plain error (`status.FromError` reports `ok = false`). -/
inductive GoError where
  | statusError (code : Code) (msg : String)
  | plainError (msg : String)
  deriving DecidableEq, Repr

/-- The JSON error body written by the handlers' `writeJSONError`
(fields `error`, `message`, `code`). -/
structure ErrorResponse where
  error : String
  message : String
  code : Nat
  deriving DecidableEq, Repr

/-- An HTTP error reply: status line plus JSON body. -/
structure HTTPErrorReply where
  statusCode : Nat
  body : ErrorResponse
  deriving DecidableEq, Repr

/-- `writeJSONError` from handlers/response.go: writes the status code and
the JSON body `{error: StatusText(status), message, code: status}`. -/
def writeJSONErrorH (statusCode : Nat) (message : String) : HTTPErrorReply :=
  { statusCode := statusCode
    body := { error := statusText statusCode, message := message, code := statusCode } }

/-- `writeJSONErrorFromGRPC` from handlers/response.go: a gRPC status error
is translated through `grpcCodeToHTTP` and its message is forwarded; a
non-status error falls back to the caller-supplied default status. -/
def writeJSONErrorFromGRPC (err : GoError) (defaultStatus : Nat) : HTTPErrorReply :=
  match err with
  | .statusError code msg => writeJSONErrorH (grpcCodeToHTTP code) msg
  | .plainError msg => writeJSONErrorH defaultStatus msg

end Gateway

namespace Gateway

/-- C2: for every failed backend call that carries a failure kind, the
client-facing HTTP status is `grpcCodeToHTTP` of that kind alone
(independent of the message and of the caller's default), and the
mapping agrees with the fixed table of the spec, every unlisted kind
going to 500. -/
theorem backend_error_status_table (code : Code) (msg : String) (d : Nat) :
    (writeJSONErrorFromGRPC (.statusError code msg) d).statusCode = grpcCodeToHTTP code
    ∧ grpcCodeToHTTP .invalidArgument = 400
    ∧ grpcCodeToHTTP .notFound = 404
    ∧ grpcCodeToHTTP .alreadyExists = 409
    ∧ grpcCodeToHTTP .permissionDenied = 403
    ∧ grpcCodeToHTTP .unauthenticated = 401
    ∧ grpcCodeToHTTP .resourceExhausted = 429
    ∧ grpcCodeToHTTP .unimplemented = 501
    ∧ grpcCodeToHTTP .unavailable = 503
    ∧ grpcCodeToHTTP .deadlineExceeded = 504
    ∧ grpcCodeToHTTP .canceled = 408
    ∧ grpcCodeToHTTP .unknown = 500
    ∧ grpcCodeToHTTP .internal = 500
    ∧ grpcCodeToHTTP .failedPrecondition = 500
    ∧ grpcCodeToHTTP .aborted = 500
    ∧ grpcCodeToHTTP .outOfRange = 500
    ∧ grpcCodeToHTTP .dataLoss = 500
    ∧ grpcCodeToHTTP .ok = 500 := by
  refine ⟨rfl, ?_⟩
  repeat' constructor

/-- C5 counterexample: two backend failures of kind `unauthenticated` with
different raw messages produce different client-visible messages, and the
raw backend message is reproduced verbatim — no normalization occurs. -/
theorem unauthenticated_message_not_normalized :
    (writeJSONErrorFromGRPC (.statusError .unauthenticated "internal auth token mismatch at user-service") 500).body.message
      ≠ (writeJSONErrorFromGRPC (.statusError .unauthenticated "token expired") 500).body.message
    ∧ (writeJSONErrorFromGRPC (.statusError .unauthenticated "internal auth token mismatch at user-service") 500).body.message
      = "internal auth token mismatch at user-service"
    ∧ (writeJSONErrorFromGRPC (.statusError .permissionDenied "role table row 17 missing") 500).body.message
      = "role table row 17 missing" := by
  refine ⟨?_, rfl, rfl⟩
  decide

/-- C5 amended: for every failure kind, including `unauthenticated` and
`permission-denied`, the client-facing message equals the backend's raw
message verbatim. -/
theorem backend_message_forwarded_verbatim (code : Code) (msg : String) (d : Nat) :
    (writeJSONErrorFromGRPC (.statusError code msg) d).body.message = msg := by
  cases code <;> rfl

end Gateway

namespace Gateway

/-! ## Response writer state
A shallow model of the per-request gin response writer: response headers,
last written status, number of body writes, and the JSON error body. -/

/-- The observable state of a response writer. -/
structure ResponseState where
  headers : List (String × String)
  status : Nat
  writeCount : Nat
  body : Option ErrorResponse
  deriving DecidableEq, Repr

/-- A fresh response writer at pipeline entry. -/
def emptyResponse : ResponseState :=
  { headers := [], status := 0, writeCount := 0, body := none }

/-- `Header().Set`: replace the value under a key, or append it. -/
def setHeader : List (String × String) → String → String → List (String × String)
  | [], k, v => [(k, v)]
  | (k0, v0) :: rest, k, v =>
    if k0 = k then (k, v) :: rest else (k0, v0) :: setHeader rest k v

/-- Read a response header. -/
def getHeader (hs : List (String × String)) (k : String) : Option String :=
  (hs.find? (fun p => p.1 = k)).map (fun p => p.2)

/-- `writeJSONError` from internal/middleware (response.go of the middleware
package): `AbortWithStatusJSON(status, {error, message, code})`. It writes
the status and JSON body and touches no headers. -/
def writeJSONError (w : ResponseState) (statusCode : Nat) (message : String) : ResponseState :=
  { w with
      status := statusCode
      writeCount := w.writeCount + 1
      body := some { error := statusText statusCode, message := message, code := statusCode } }

/-! ## Rate limiter
Embeds the `visitor` record, `RateLimiter`, `getVisitor` and
`Middleware` from internal/middleware (part_005). Time is in
abstract units (Nat); `time.Since(t) > window` becomes
`now - t > window` on Nat. -/

/-- The `visitor` record: last-seen (window start) timestamp and count. -/
structure Visitor where
  lastSeen : Nat
  count : Nat
  deriving DecidableEq, Repr

/-- The `RateLimiter` state: the visitors map plus the configured
requests-per-window limit and window length. -/
structure RateLimiter where
  visitors : List (String × Visitor)
  requests : Nat
  window : Nat
  deriving DecidableEq, Repr

/-- Go map read `rl.visitors[ip]`. -/
def lookupV (l : List (String × Visitor)) (ip : String) : Option Visitor :=
  (l.find? (fun p => p.1 = ip)).map (fun p => p.2)

/-- Go map write `rl.visitors[ip] = v`. -/
def setVisitor : List (String × Visitor) → String → Visitor → List (String × Visitor)
  | [], ip, v => [(ip, v)]
  | (k, v0) :: rest, ip, v =>
    if k = ip then (ip, v) :: rest else (k, v0) :: setVisitor rest ip v

/-- Visitor lookup on a limiter. -/
def lookupVisitor (rl : RateLimiter) (ip : String) : Option Visitor :=
  lookupV rl.visitors ip

/-- `getVisitor`: fetch the record for `ip`, creating
`{lastSeen: now, count: 0}` on first sight. -/
def getVisitor (rl : RateLimiter) (ip : String) (now : Nat) : Visitor × RateLimiter :=
  match lookupVisitor rl ip with
  | some v => (v, rl)
  | none =>
    ({ lastSeen := now, count := 0 },
     { rl with visitors := setVisitor rl.visitors ip { lastSeen := now, count := 0 } })

/-- One admission check of `RateLimiter.Middleware`: fetch or create the
record, reset it if the window has passed, then reject with 429 when the
count has reached the limit, else increment and admit (`none`). The
in-place pointer mutations of the Go code become a map write on both
branches. -/
def rateLimitStep (rl : RateLimiter) (ip : String) (now : Nat) : Option Nat × RateLimiter :=
  let g := getVisitor rl ip now
  let v := g.1
  let rl1 := g.2
  let v1 := if now - v.lastSeen > rl.window then { lastSeen := now, count := 0 } else v
  if v1.count ≥ rl.requests then
    (some 429, { rl1 with visitors := setVisitor rl1.visitors ip v1 })
  else
    (none, { rl1 with visitors := setVisitor rl1.visitors ip { v1 with count := v1.count + 1 } })

/-- A sequence of admission checks for one key at the given times. -/
def runChecks : RateLimiter → String → List Nat → List (Option Nat) × RateLimiter
  | rl, _, [] => ([], rl)
  | rl, ip, t :: ts =>
    let s := rateLimitStep rl ip t
    let rest := runChecks s.2 ip ts
    (s.1 :: rest.1, rest.2)

/-- The rate-limiting middleware seen from the response writer: on
rejection it writes the 429 JSON error and aborts (`false`); on admission
it continues (`true`) without touching the writer. -/
def rateLimiterMiddleware (rl : RateLimiter) (ip : String) (now : Nat) (w : ResponseState) :
    Bool × ResponseState × RateLimiter :=
  match (rateLimitStep rl ip now).1 with
  | some s => (false, writeJSONError w s "rate limit exceeded", (rateLimitStep rl ip now).2)
  | none => (true, w, (rateLimitStep rl ip now).2)

end Gateway

namespace Gateway


theorem lookupV_setVisitor_self (l : List (String × Visitor)) (ip : String) (v : Visitor) :
    lookupV (setVisitor l ip v) ip = some v := by
  induction l with
  | nil => simp [setVisitor, lookupV]
  | cons p rest ih =>
    obtain ⟨k, v0⟩ := p
    by_cases h : k = ip
    · simp [setVisitor, h, lookupV]
    · simpa [setVisitor, h, lookupV] using ih

theorem rateLimitStep_requests (rl : RateLimiter) (ip : String) (now : Nat) :
    ((rateLimitStep rl ip now).2).requests = rl.requests := by
  unfold rateLimitStep getVisitor
  cases lookupVisitor rl ip <;> dsimp only <;> (repeat' split) <;> rfl

theorem rateLimitStep_window (rl : RateLimiter) (ip : String) (now : Nat) :
    ((rateLimitStep rl ip now).2).window = rl.window := by
  unfold rateLimitStep getVisitor
  cases lookupVisitor rl ip <;> dsimp only <;> (repeat' split) <;> rfl

/-- First check from an unseen key: the record is created with window start
`now`, no reset fires, and (limit at least 1) the check is admitted with
count 1. -/
theorem rateLimitStep_fresh (rl : RateLimiter) (ip : String) (now : Nat)
    (h : lookupVisitor rl ip = none) (hreq : 1 ≤ rl.requests) :
    (rateLimitStep rl ip now).1 = none ∧
    lookupVisitor (rateLimitStep rl ip now).2 ip = some { lastSeen := now, count := 1 } := by
  have hres : ¬ (now - now > rl.window) := by omega
  have hcnt : ¬ (rl.requests ≤ 0) := by omega
  unfold rateLimitStep getVisitor
  rw [h]
  simp [hres, hcnt, lookupVisitor, lookupV_setVisitor_self]

/-- A check within the window of an existing record below the limit is
admitted and increments the count by exactly 1. -/
theorem rateLimitStep_incr (rl : RateLimiter) (ip : String) (now t0 c : Nat)
    (h : lookupVisitor rl ip = some { lastSeen := t0, count := c })
    (hw : now ≤ t0 + rl.window) (hc : c < rl.requests) :
    (rateLimitStep rl ip now).1 = none ∧
    lookupVisitor (rateLimitStep rl ip now).2 ip = some { lastSeen := t0, count := c + 1 } := by
  have hres : ¬ (now - t0 > rl.window) := by omega
  have hcnt : ¬ (rl.requests ≤ c) := by omega
  unfold rateLimitStep getVisitor
  rw [h]
  simp [hres, hcnt, lookupVisitor, lookupV_setVisitor_self]

/-- A check within the window of a record at or above the limit is rejected
with 429 and leaves the record unchanged. -/
theorem rateLimitStep_reject (rl : RateLimiter) (ip : String) (now t0 c : Nat)
    (h : lookupVisitor rl ip = some { lastSeen := t0, count := c })
    (hw : now ≤ t0 + rl.window) (hc : rl.requests ≤ c) :
    (rateLimitStep rl ip now).1 = some 429 ∧
    lookupVisitor (rateLimitStep rl ip now).2 ip = some { lastSeen := t0, count := c } := by
  have hres : ¬ (now - t0 > rl.window) := by omega
  unfold rateLimitStep getVisitor
  rw [h]
  simp [hres, hc, lookupVisitor, lookupV_setVisitor_self]

/-- A check strictly more than one window after the record's window start
resets the record to window start `now` and (limit at least 1) is admitted
with count 1. -/
theorem rateLimitStep_reset (rl : RateLimiter) (ip : String) (now t0 c : Nat)
    (h : lookupVisitor rl ip = some { lastSeen := t0, count := c })
    (hw : t0 + rl.window < now) (hreq : 1 ≤ rl.requests) :
    (rateLimitStep rl ip now).1 = none ∧
    lookupVisitor (rateLimitStep rl ip now).2 ip = some { lastSeen := now, count := 1 } := by
  have hres : now - t0 > rl.window := by omega
  have hcnt : ¬ (rl.requests ≤ 0) := by omega
  unfold rateLimitStep getVisitor
  rw [h]
  simp [hres, hcnt, lookupVisitor, lookupV_setVisitor_self]

end Gateway

namespace Gateway

theorem runChecks_nil (rl : RateLimiter) (ip : String) : runChecks rl ip [] = ([], rl) := rfl

theorem runChecks_cons (rl : RateLimiter) (ip : String) (t : Nat) (ts : List Nat) :
    runChecks rl ip (t :: ts) =
      ((rateLimitStep rl ip t).1 :: (runChecks (rateLimitStep rl ip t).2 ip ts).1,
       (runChecks (rateLimitStep rl ip t).2 ip ts).2) := rfl

/-- Running checks all within the window of an existing record, with room
below the limit, admits every check and adds exactly one to the count per
check. -/
theorem runChecks_within (ip : String) (t0 : Nat) (ts : List Nat) :
    ∀ (rl : RateLimiter) (c : Nat),
      lookupVisitor rl ip = some { lastSeen := t0, count := c } →
      (∀ t ∈ ts, t ≤ t0 + rl.window) →
      c + ts.length ≤ rl.requests →
      (runChecks rl ip ts).1 = List.replicate ts.length none ∧
      lookupVisitor (runChecks rl ip ts).2 ip = some { lastSeen := t0, count := c + ts.length } ∧
      (runChecks rl ip ts).2.requests = rl.requests ∧
      (runChecks rl ip ts).2.window = rl.window := by
  induction ts with
  | nil =>
    intro rl c h _ _
    simpa [runChecks] using h
  | cons t ts ih =>
    intro rl c h hts hc
    have hc' : c + (ts.length + 1) ≤ rl.requests := by simpa using hc
    have hstep := rateLimitStep_incr rl ip t t0 c h
      (hts t (List.mem_cons_self t ts)) (by omega)
    have hreqs := rateLimitStep_requests rl ip t
    have hwin := rateLimitStep_window rl ip t
    have ihs := ih (rateLimitStep rl ip t).2 (c + 1) hstep.2
      (fun x hx => by rw [hwin]; exact hts x (List.mem_cons_of_mem t hx))
      (by rw [hreqs]; omega)
    have hlen : c + 1 + ts.length = c + (t :: ts).length := by
      simp only [List.length_cons]; omega
    refine ⟨?_, ?_, ?_, ?_⟩
    · rw [runChecks_cons]
      dsimp only
      rw [hstep.1, ihs.1]
      simp [List.replicate_succ]
    · rw [runChecks_cons]
      dsimp only
      rw [ihs.2.1, hlen]
    · rw [runChecks_cons]
      dsimp only
      rw [ihs.2.2.1, hreqs]
    · rw [runChecks_cons]
      dsimp only
      rw [ihs.2.2.2, hwin]

end Gateway

namespace Gateway

/-- C1: starting from an empty visitor store with limit `L ≥ 1` and window
`W`, for a single key: each of the first `L` checks within `W` of the
window start `t0` (the first check's time) is admitted and increments the
count by exactly 1; a further check within the window is rejected with 429
and leaves the record unchanged; and a check more than `W` after the
window start resets the window start to the current time and is admitted
with count 1. -/
theorem rateLimiter_fixed_window
    (L W t0 tR tN : Nat) (k : String) (ts : List Nat)
    (hL : 1 ≤ L) (hlen : ts.length = L) (hfirst : ts.head? = some t0)
    (hts : ∀ t ∈ ts, t0 ≤ t ∧ t ≤ t0 + W)
    (_hR1 : t0 ≤ tR) (hR2 : tR ≤ t0 + W) (hN : t0 + W < tN) :
    (∀ i, 1 ≤ i → i ≤ L →
       (runChecks { visitors := [], requests := L, window := W } k (ts.take i)).1
         = List.replicate i none ∧
       lookupVisitor (runChecks { visitors := [], requests := L, window := W } k (ts.take i)).2 k
         = some { lastSeen := t0, count := i })
    ∧ (rateLimitStep (runChecks { visitors := [], requests := L, window := W } k ts).2 k tR).1
        = some 429
    ∧ lookupVisitor
        (rateLimitStep (runChecks { visitors := [], requests := L, window := W } k ts).2 k tR).2 k
        = some { lastSeen := t0, count := L }
    ∧ (rateLimitStep
        (rateLimitStep (runChecks { visitors := [], requests := L, window := W } k ts).2 k tR).2
        k tN).1 = none
    ∧ lookupVisitor
        (rateLimitStep
          (rateLimitStep (runChecks { visitors := [], requests := L, window := W } k ts).2 k tR).2
          k tN).2 k
        = some { lastSeen := tN, count := 1 } := by
  cases ts with
  | nil => exact absurd hfirst (by simp)
  | cons a rest =>
  have ha : a = t0 := by simpa using hfirst
  subst a
  have hrest : rest.length + 1 = L := by simpa using hlen
  have h0 : lookupVisitor { visitors := [], requests := L, window := W } k = none := rfl
  have hstep := rateLimitStep_fresh { visitors := [], requests := L, window := W } k t0 h0 hL
  have hreqs := rateLimitStep_requests { visitors := [], requests := L, window := W } k t0
  have hwin := rateLimitStep_window { visitors := [], requests := L, window := W } k t0
  refine ⟨?_, ?_⟩
  · intro i h1 hiL
    obtain ⟨j, rfl⟩ : ∃ j, i = j + 1 := ⟨i - 1, by omega⟩
    rw [List.take_succ_cons]
    have hjlen : (rest.take j).length = j := by
      rw [List.length_take]; omega
    have hrun := runChecks_within k t0 (rest.take j) (rateLimitStep { visitors := [], requests := L, window := W } k t0).2 1 hstep.2
      (fun x hx => by
        rw [hwin]
        exact (hts x (List.mem_cons_of_mem _ (List.take_subset j rest hx))).2)
      (by rw [hreqs]; dsimp only; omega)
    constructor
    · rw [runChecks_cons]
      dsimp only
      rw [hstep.1, hrun.1, hjlen]
      simp [List.replicate_succ]
    · rw [runChecks_cons]
      dsimp only
      rw [hrun.2.1, hjlen]
      have : 1 + j = j + 1 := by omega
      rw [this]
  · have hfull := runChecks_within k t0 rest (rateLimitStep { visitors := [], requests := L, window := W } k t0).2 1 hstep.2
      (fun x hx => by rw [hwin]; exact (hts x (List.mem_cons_of_mem _ hx)).2)
      (by rw [hreqs]; dsimp only; omega)
    have hstate : lookupVisitor (runChecks { visitors := [], requests := L, window := W } k (t0 :: rest)).2 k
        = some { lastSeen := t0, count := L } := by
      rw [runChecks_cons]
      dsimp only
      rw [hfull.2.1]
      have : 1 + rest.length = L := by omega
      rw [this]
    have hreqF : (runChecks { visitors := [], requests := L, window := W } k (t0 :: rest)).2.requests = L := by
      rw [runChecks_cons]
      dsimp only
      rw [hfull.2.2.1, hreqs]
    have hwinF : (runChecks { visitors := [], requests := L, window := W } k (t0 :: rest)).2.window = W := by
      rw [runChecks_cons]
      dsimp only
      rw [hfull.2.2.2, hwin]
    have hrej := rateLimitStep_reject
      (runChecks { visitors := [], requests := L, window := W } k (t0 :: rest)).2 k tR t0 L
      hstate (by rw [hwinF]; exact hR2) (by rw [hreqF])
    have hreqR := rateLimitStep_requests
      (runChecks { visitors := [], requests := L, window := W } k (t0 :: rest)).2 k tR
    have hwinR := rateLimitStep_window
      (runChecks { visitors := [], requests := L, window := W } k (t0 :: rest)).2 k tR
    have hres := rateLimitStep_reset
      (rateLimitStep (runChecks { visitors := [], requests := L, window := W } k (t0 :: rest)).2 k tR).2
      k tN t0 L hrej.2
      (by rw [hwinR, hwinF]; exact hN)
      (by rw [hreqR, hreqF]; exact hL)
    exact ⟨hrej.1, hrej.2, hres.1, hres.2⟩

/-- Witness for C1 at `L = 2`, `W = 10`, key checks at times 0 and 5, a
third check at 7 (rejected), and one at 20 (window reset, admitted). -/
theorem rateLimiter_fixed_window_witness :
    (runChecks { visitors := [], requests := 2, window := 10 } "1.2.3.4" [0, 5]).1
      = [none, none]
    ∧ (rateLimitStep (runChecks { visitors := [], requests := 2, window := 10 } "1.2.3.4" [0, 5]).2 "1.2.3.4" 7).1
      = some 429
    ∧ (rateLimitStep
        (rateLimitStep (runChecks { visitors := [], requests := 2, window := 10 } "1.2.3.4" [0, 5]).2 "1.2.3.4" 7).2
        "1.2.3.4" 20).1 = none := by
  have h := rateLimiter_fixed_window 2 10 0 7 20 "1.2.3.4" [0, 5]
    (by decide) (by decide) (by decide)
    (by intro t ht; fin_cases ht <;> omega)
    (by decide) (by decide) (by decide)
  refine ⟨?_, h.2.1, h.2.2.2.1⟩
  have h2 := (h.1 2 (by decide) (by decide)).1
  simpa using h2

end Gateway

namespace Gateway

/-! ## Authentication and authorization middleware
Embeds `AuthMiddleware` and `RequireRole` from internal/middleware
(part_002) and their chaining on a role-gated route
(router.go: `withAuth()` then `withRole(...)`). The JWT manager's
`Verify` lives outside this package and is abstracted as an arbitrary
function from token to optional claims. -/

/-- `UserClaims`: the verified identity (subject id, role). -/
structure UserClaims where
  userID : Nat
  role : String
  deriving DecidableEq, Repr

/-- Outcome of a middleware stage: an aborted response or continuation. -/
inductive StageResult (α : Type) where
  | aborted (status : Nat) (msg : String)
  | next (a : α)
  deriving DecidableEq, Repr

/-- Go `strings.Split(s, sep)` for a one-character separator: splits
around every instance, keeping empty fields (so the empty string yields
one empty field). -/
def stringsSplitAux (sep : Char) : List Char → List (List Char)
  | [] => [[]]
  | c :: rest =>
    let r := stringsSplitAux sep rest
    if c = sep then [] :: r
    else
      match r with
      | [] => [[c]]
      | g :: gs => (c :: g) :: gs

/-- Go `strings.Split` on a one-character separator, as strings. -/
def stringsSplit (s : String) (sep : Char) : List String :=
  (stringsSplitAux sep s.toList).map (fun l => String.mk l)

/-- `AuthMiddleware`: 401 on missing header, on a header that is not
exactly `Bearer <token>`, and on failed verification; otherwise the
claims continue down the chain. -/
def AuthMiddleware (verify : String → Option UserClaims) (authHeader : String) :
    StageResult UserClaims :=
  if authHeader = "" then .aborted 401 "missing authorization header"
  else
    match stringsSplit authHeader ' ' with
    | [p0, p1] =>
      if p0 = "Bearer" then
        match verify p1 with
        | none => .aborted 401 "invalid or expired token"
        | some claims => .next claims
      else .aborted 401 "invalid authorization header format"
    | _ => .aborted 401 "invalid authorization header format"

/-- `RequireRole`: 401 when no claims are in the request context, 403 when
the claims' role is outside the allowed set. -/
def RequireRole (roles : List String) (claims : Option UserClaims) : StageResult Unit :=
  match claims with
  | none => .aborted 401 "unauthorized"
  | some c =>
    if roles.contains c.role then .next () else .aborted 403 "insufficient permissions"

/-- A role-gated route as wired in router.go: `withAuth()` then
`withRole(roles...)`; an abort short-circuits the chain, and successful
authentication attaches the claims to the context seen by `RequireRole`. -/
def gatedRoute (verify : String → Option UserClaims) (roles : List String)
    (authHeader : String) : StageResult Unit :=
  match AuthMiddleware verify authHeader with
  | .aborted s m => .aborted s m
  | .next claims => RequireRole roles (some claims)

/-- The response status of a stage outcome, if it aborted. -/
def statusOf {α : Type} : StageResult α → Option Nat
  | .aborted s _ => some s
  | .next _ => none

/-- The credential a request carries: present exactly when the header is
`Bearer <token>` and the token verifies. -/
def credentialOf (verify : String → Option UserClaims) (authHeader : String) :
    Option UserClaims :=
  match stringsSplit authHeader ' ' with
  | [p0, p1] => if p0 = "Bearer" then verify p1 else none
  | _ => none

end Gateway

namespace Gateway

/-- C3: on a role-gated route, a request with no credential (missing or
malformed Authorization header, or a token that fails verification) is
answered 401 — never 403 — while a request with a valid credential whose
role is outside the allowed set is answered 403. -/
theorem roleGated_auth_ordering (verify : String → Option UserClaims)
    (roles : List String) (h : String) :
    (credentialOf verify h = none → statusOf (gatedRoute verify roles h) = some 401)
    ∧ (∀ c, credentialOf verify h = some c → c.role ∉ roles →
        statusOf (gatedRoute verify roles h) = some 403) := by
  constructor
  · intro hnone
    unfold gatedRoute AuthMiddleware
    by_cases he : h = ""
    · simp [he, statusOf]
    · rw [if_neg he]
      unfold credentialOf at hnone
      rcases hs : stringsSplit h ' ' with _ | ⟨p0, tl⟩
      · simp [hs, statusOf]
      · rcases tl with _ | ⟨p1, tl2⟩
        · simp [hs, statusOf]
        · rcases tl2 with _ | ⟨p2, tl3⟩
          · rw [hs] at hnone
            by_cases hb : p0 = "Bearer"
            · subst hb
              simp at hnone
              simp [hs, hnone, statusOf]
            · simp [hs, hb, statusOf]
          · simp [hs, statusOf]
  · intro c hc hrole
    unfold credentialOf at hc
    rcases hs : stringsSplit h ' ' with _ | ⟨p0, tl⟩ <;> rw [hs] at hc
    · simp at hc
    · rcases tl with _ | ⟨p1, tl2⟩
      · simp at hc
      · rcases tl2 with _ | ⟨p2, tl3⟩
        · by_cases hb : p0 = "Bearer"
          · subst hb
            simp at hc
            have he : h ≠ "" := by
              intro h0
              subst h0
              rw [show stringsSplit "" ' ' = [""] from rfl] at hs
              simp at hs
            unfold gatedRoute AuthMiddleware
            rw [if_neg he, hs]
            simp [hc, RequireRole, statusOf, hrole]
          · simp [hb] at hc
        · simp at hc

/-- Witness for C3: with a verifier accepting only the token "good" (role
"customer"), a bad token on an admin route gets 401 and a good token with
the wrong role gets 403. -/
theorem roleGated_auth_ordering_witness :
    statusOf (gatedRoute (fun t => if t = "good" then some { userID := 7, role := "customer" } else none) ["admin"] "Bearer bad") = some 401
    ∧ statusOf (gatedRoute (fun t => if t = "good" then some { userID := 7, role := "customer" } else none) ["admin"] "Bearer good") = some 403 := by
  constructor
  · exact (roleGated_auth_ordering
      (fun t => if t = "good" then some { userID := 7, role := "customer" } else none)
      ["admin"] "Bearer bad").1 (by decide)
  · exact (roleGated_auth_ordering
      (fun t => if t = "good" then some { userID := 7, role := "customer" } else none)
      ["admin"] "Bearer good").2 { userID := 7, role := "customer" } (by decide) (by decide)

end Gateway

namespace Gateway

/-! ## Timeout and cancellation middleware
Embeds `Timeout` (part_005) and `Cancellation` (part_003). The derived
context's deadline outcome and the outer request context's error state
are data; the downstream chain is an arbitrary writer transformer. -/

/-- A Go context error: deadline exceeded or external cancellation. -/
inductive CtxErr where
  | deadlineExceeded
  | canceled
  deriving DecidableEq, Repr

/-- `Timeout`: run the chain under a derived deadline; afterwards, if that
deadline elapsed and nothing was written, write the 504 timeout error. -/
def Timeout (dlExceeded : Bool) (next : ResponseState → ResponseState)
    (w : ResponseState) : ResponseState :=
  let w2 := next w
  if dlExceeded = true ∧ w2.writeCount = 0 then
    writeJSONError w2 504 "request timeout"
  else w2

/-- `Cancellation`: if the request context is already done at entry, answer
503 without running the chain; otherwise run it and, if the context ended
with no response written, write 504 (deadline) or 503 (canceled). -/
def Cancellation (errAtEntry errAfterNext : Option CtxErr)
    (next : ResponseState → ResponseState) (w : ResponseState) : ResponseState :=
  match errAtEntry with
  | some _ => writeJSONError w 503 "request canceled"
  | none =>
    let w2 := next w
    match errAfterNext with
    | none => w2
    | some e =>
      if w2.writeCount = 0 then
        writeJSONError w2 (match e with | .deadlineExceeded => 504 | .canceled => 503)
          "request canceled"
      else w2

/-- The `Cancellation`-around-`Timeout` slice of the middleware chain as
registered in router.go (the outer error state is the request context
captured before `Timeout` derives its own). -/
def timeoutPipeline (outerEntry outerAfter : Option CtxErr) (dlExceeded : Bool)
    (next : ResponseState → ResponseState) (w : ResponseState) : ResponseState :=
  Cancellation outerEntry outerAfter (Timeout dlExceeded next) w

/-- C4: if the per-request deadline elapses before any response was
written, exactly one response is written and it is a 504; if a response
was already written when the deadline check runs, nothing further is
written (the writer is returned untouched). -/
theorem timeout_single_write (outerAfter : Option CtxErr) (dlExceeded : Bool)
    (next : ResponseState → ResponseState) (w : ResponseState) :
    (dlExceeded = true → (next w).writeCount = 0 →
       (timeoutPipeline none outerAfter dlExceeded next w).writeCount = 1
       ∧ (timeoutPipeline none outerAfter dlExceeded next w).status = 504)
    ∧ (0 < (next w).writeCount →
       timeoutPipeline none outerAfter dlExceeded next w = next w) := by
  constructor
  · intro hdl hnw
    unfold timeoutPipeline Cancellation Timeout
    cases outerAfter with
    | none => simp [hdl, hnw, writeJSONError]
    | some e => simp [hdl, hnw, writeJSONError]
  · intro hw
    unfold timeoutPipeline Cancellation Timeout
    have hcond : ¬ (dlExceeded = true ∧ (next w).writeCount = 0) := by
      intro hc
      omega
    cases outerAfter with
    | none => simp [hcond]
    | some e =>
      simp only [hcond, if_false]
      simp [if_neg hcond]
      omega

/-- Witness for C4: an elapsing deadline over a silent chain yields one
504 write; a chain that already wrote is passed through untouched. -/
theorem timeout_single_write_witness :
    ((timeoutPipeline none none true (fun s => s) emptyResponse).writeCount = 1
      ∧ (timeoutPipeline none none true (fun s => s) emptyResponse).status = 504)
    ∧ timeoutPipeline none none false (fun s => writeJSONError s 200 "ok") emptyResponse
        = writeJSONError emptyResponse 200 "ok" := by
  constructor
  · exact (timeout_single_write none true (fun s => s) emptyResponse).1 rfl rfl
  · exact (timeout_single_write none false (fun s => writeJSONError s 200 "ok") emptyResponse).2
      (by decide)

end Gateway

namespace Gateway

/-! ## CORS and request-id middleware
Embeds `CORS` and `joinStrings` (part_004) and `RequestID` (part_005),
composed in the order registered by `setupMiddleware` in router.go:
CORS runs first and aborts preflight requests before `RequestID` runs. -/

/-- `joinStrings` from part_004. -/
def joinStrings (strs : List String) (sep : String) : String :=
  match strs with
  | [] => ""
  | s :: rest => rest.foldl (fun acc x => acc ++ sep ++ x) s

/-- The allowed-origin loop of `CORS`: the first configured origin that is
`*` or equals the request origin, defaulting to `*`. -/
def allowedOriginFor (allowedOrigins : List String) (origin : String) : String :=
  match allowedOrigins.find? (fun a => a = "*" || a = origin) with
  | some a => a
  | none => "*"

/-- `CORS`: set the five cross-origin headers, then abort preflight
(OPTIONS) requests with 204; otherwise continue. The Bool is whether the
chain continues. -/
def CORS (allowedOrigins allowedMethods allowedHeaders : List String)
    (method origin : String) (w : ResponseState) : ResponseState × Bool :=
  let hs := setHeader w.headers "Access-Control-Allow-Origin" (allowedOriginFor allowedOrigins origin)
  let hs := setHeader hs "Access-Control-Allow-Methods" (joinStrings allowedMethods ", ")
  let hs := setHeader hs "Access-Control-Allow-Headers" (joinStrings allowedHeaders ", ")
  let hs := setHeader hs "Access-Control-Allow-Credentials" "true"
  let hs := setHeader hs "Access-Control-Max-Age" "86400"
  let w1 := { w with headers := hs }
  if method = "OPTIONS" then
    ({ w1 with status := 204, writeCount := w1.writeCount + 1 }, false)
  else (w1, true)

/-- `RequestID`: reuse the client-supplied `X-Request-ID` when non-empty,
else a freshly generated identifier; set it on the response header before
continuing. -/
def RequestID (clientID fresh : String) (w : ResponseState) : ResponseState × String :=
  let rid := if clientID = "" then fresh else clientID
  ({ w with headers := setHeader w.headers "X-Request-ID" rid }, rid)

/-- The CORS-then-RequestID prefix of the pipeline (Recovery, in between,
touches no response state on the non-panicking path); `next` is the rest
of the chain. -/
def corsRequestIDPipeline (allowedOrigins allowedMethods allowedHeaders : List String)
    (method origin clientID fresh : String)
    (next : ResponseState → ResponseState) : ResponseState :=
  let c := CORS allowedOrigins allowedMethods allowedHeaders method origin emptyResponse
  if c.2 then next (RequestID clientID fresh c.1).1 else c.1

theorem getHeader_setHeader_self (hs : List (String × String)) (k v : String) :
    getHeader (setHeader hs k v) k = some v := by
  induction hs with
  | nil => simp [setHeader, getHeader]
  | cons p rest ih =>
    obtain ⟨k0, v0⟩ := p
    by_cases h : k0 = k
    · simp [setHeader, h, getHeader]
    · simpa [setHeader, h, getHeader] using ih

/-- C6 counterexample: a cross-origin preflight (OPTIONS) request is
aborted by the CORS stage before the RequestID stage runs, so its response
carries no `X-Request-ID` header even though the client supplied one. -/
theorem preflight_response_lacks_request_id :
    getHeader (corsRequestIDPipeline ["*"] ["GET", "POST", "OPTIONS"] ["Content-Type"]
      "OPTIONS" "http://shop.example" "client-supplied-id" "fresh-uuid"
      (fun s => s)).headers "X-Request-ID" = none
    ∧ (corsRequestIDPipeline ["*"] ["GET", "POST", "OPTIONS"] ["Content-Type"]
      "OPTIONS" "http://shop.example" "client-supplied-id" "fresh-uuid"
      (fun s => s)).status = 204 := by
  decide

/-- C6 amended: every non-preflight request — including those later
rejected by the rate limiter or by authentication, since the header is set
before the rest of the chain runs — gets a non-empty `X-Request-ID` equal
to the client-supplied id when present and to the generated one otherwise;
preflight OPTIONS requests are short-circuited by CORS before the
RequestID stage and carry none. -/
theorem request_id_on_non_preflight (allowedOrigins allowedMethods allowedHeaders : List String)
    (method origin clientID fresh : String) (next : ResponseState → ResponseState)
    (hm : method ≠ "OPTIONS") (hf : fresh ≠ "")
    (hnext : ∀ s, (next s).headers = s.headers) :
    getHeader (corsRequestIDPipeline allowedOrigins allowedMethods allowedHeaders
        method origin clientID fresh next).headers "X-Request-ID"
      = some (if clientID = "" then fresh else clientID)
    ∧ (if clientID = "" then fresh else clientID) ≠ "" := by
  constructor
  · simp [corsRequestIDPipeline, CORS, if_neg hm, hnext, RequestID, getHeader_setHeader_self]
  · by_cases hc : clientID = ""
    · simpa [hc] using hf
    · simp [hc]

/-- Witness for C6 (amended): a GET request with no client id gets the
generated id on the response. -/
theorem request_id_on_non_preflight_witness :
    getHeader (corsRequestIDPipeline ["*"] ["GET"] ["Content-Type"]
        "GET" "http://shop.example" "" "fresh-uuid" (fun s => s)).headers "X-Request-ID"
      = some "fresh-uuid" := by
  have h := (request_id_on_non_preflight ["*"] ["GET"] ["Content-Type"]
    "GET" "http://shop.example" "" "fresh-uuid" (fun s => s)
    (by decide) (by decide) (fun s => rfl)).1
  simpa using h

end Gateway

namespace Gateway

/-- An admission check either admits or rejects with exactly 429. -/
theorem rateLimitStep_fst (rl : RateLimiter) (ip : String) (now : Nat) :
    (rateLimitStep rl ip now).1 = none ∨ (rateLimitStep rl ip now).1 = some 429 := by
  unfold rateLimitStep getVisitor
  cases lookupVisitor rl ip <;> dsimp only <;> (repeat' split) <;> simp

/-- C8 counterexample: a rejected admission check answers 429 with the
fixed body "rate limit exceeded" and adds no `Retry-After`,
`X-RateLimit-Limit` or `X-RateLimit-Remaining` header — the response
carries no remaining-time retry hint. -/
theorem rate_limit_429_carries_no_retry_headers :
    (rateLimiterMiddleware { visitors := [("9.9.9.9", { lastSeen := 0, count := 1 })], requests := 1, window := 60 } "9.9.9.9" 30 emptyResponse).1 = false
    ∧ (rateLimiterMiddleware { visitors := [("9.9.9.9", { lastSeen := 0, count := 1 })], requests := 1, window := 60 } "9.9.9.9" 30 emptyResponse).2.1.status = 429
    ∧ getHeader (rateLimiterMiddleware { visitors := [("9.9.9.9", { lastSeen := 0, count := 1 })], requests := 1, window := 60 } "9.9.9.9" 30 emptyResponse).2.1.headers "Retry-After" = none
    ∧ getHeader (rateLimiterMiddleware { visitors := [("9.9.9.9", { lastSeen := 0, count := 1 })], requests := 1, window := 60 } "9.9.9.9" 30 emptyResponse).2.1.headers "X-RateLimit-Limit" = none
    ∧ getHeader (rateLimiterMiddleware { visitors := [("9.9.9.9", { lastSeen := 0, count := 1 })], requests := 1, window := 60 } "9.9.9.9" 30 emptyResponse).2.1.headers "X-RateLimit-Remaining" = none
    ∧ (rateLimiterMiddleware { visitors := [("9.9.9.9", { lastSeen := 0, count := 1 })], requests := 1, window := 60 } "9.9.9.9" 30 emptyResponse).2.1.body
        = some { error := "Too Many Requests", message := "rate limit exceeded", code := 429 } := by
  decide

/-- C8 amended: every rejected admission check writes a 429 with the fixed
JSON body (error "Too Many Requests", message "rate limit exceeded"),
leaves the response headers exactly as they were — so no rate-limit or
Retry-After header is added — and (limit at least 1) does not change the
key's visitor record. -/
theorem rate_limit_reject_response (rl : RateLimiter) (ip : String) (now : Nat)
    (w : ResponseState) (hrej : (rateLimitStep rl ip now).1 ≠ none) :
    (rateLimiterMiddleware rl ip now w).1 = false
    ∧ (rateLimiterMiddleware rl ip now w).2.1.status = 429
    ∧ (rateLimiterMiddleware rl ip now w).2.1.body
        = some { error := "Too Many Requests", message := "rate limit exceeded", code := 429 }
    ∧ (rateLimiterMiddleware rl ip now w).2.1.headers = w.headers
    ∧ (1 ≤ rl.requests →
        lookupVisitor (rateLimiterMiddleware rl ip now w).2.2 ip = lookupVisitor rl ip) := by
  have h429 : (rateLimitStep rl ip now).1 = some 429 :=
    (rateLimitStep_fst rl ip now).resolve_left hrej
  have hcount : 1 ≤ rl.requests →
      lookupVisitor (rateLimitStep rl ip now).2 ip = lookupVisitor rl ip := by
    intro hreq
    rcases hv : lookupVisitor rl ip with _ | v
    · exact absurd h429 (by rw [(rateLimitStep_fresh rl ip now hv hreq).1]; simp)
    · obtain ⟨t0, c⟩ := v
      by_cases hres : t0 + rl.window < now
      · exact absurd h429 (by rw [(rateLimitStep_reset rl ip now t0 c hv hres hreq).1]; simp)
      · by_cases hc : rl.requests ≤ c
        · rw [(rateLimitStep_reject rl ip now t0 c hv (by omega) hc).2]
        · exact absurd h429
            (by rw [(rateLimitStep_incr rl ip now t0 c hv (by omega) (by omega)).1]; simp)
  refine ⟨?_, ?_, ?_, ?_, ?_⟩
  · simp [rateLimiterMiddleware, h429]
  · simp [rateLimiterMiddleware, h429, writeJSONError]
  · simp [rateLimiterMiddleware, h429, writeJSONError, statusText]
  · simp [rateLimiterMiddleware, h429, writeJSONError]
  · simpa [rateLimiterMiddleware, h429] using hcount

/-- Witness for C8 (amended) at a concrete full limiter. -/
theorem rate_limit_reject_response_witness :
    (rateLimiterMiddleware { visitors := [("k", { lastSeen := 5, count := 3 })], requests := 3, window := 60 } "k" 40 emptyResponse).1 = false
    ∧ lookupVisitor (rateLimiterMiddleware { visitors := [("k", { lastSeen := 5, count := 3 })], requests := 3, window := 60 } "k" 40 emptyResponse).2.2 "k"
        = lookupVisitor { visitors := [("k", { lastSeen := 5, count := 3 })], requests := 3, window := 60 } "k" := by
  have h := rate_limit_reject_response
    { visitors := [("k", { lastSeen := 5, count := 3 })], requests := 3, window := 60 }
    "k" 40 emptyResponse (by decide)
  exact ⟨h.1, h.2.2.2.2 (by decide)⟩

end Gateway

namespace Gateway

/-! ## Process lifecycle
Embeds the control flow of `main` in services/ApiGateway/cmd/main.go.
Every path returns normally from `main` — configuration or client
failures `return`, a listener failure and a forced `Shutdown` are only
logged — so the Go process exit status is 0 in each case. The model
returns the exit status together with the log lines that distinguish the
paths. -/

/-- The exit status and characteristic log lines of `main` as a function
of which failures occur. -/
def mainRun (configOk clientsOk listenFailed drainForced : Bool) : Nat × List String :=
  if configOk = false then (0, ["failed to load configuration"])
  else if clientsOk = false then (0, ["Failed to initialize service clients"])
  else
    (0,
      (if listenFailed then ["Failed to start server"] else [])
        ++ ["Shutting down API Gateway..."]
        ++ (if drainForced then ["Server forced to shutdown"] else [])
        ++ ["API Gateway stopped"])

/-- C7 counterexample: a drain that required forced closure, and a failed
listener start, both end with exit status 0 (the claim requires non-zero);
the failures are only logged. -/
theorem forced_drain_exits_zero :
    (mainRun true true false true).1 = 0
    ∧ "Server forced to shutdown" ∈ (mainRun true true false true).2
    ∧ (mainRun true true true false).1 = 0
    ∧ "Failed to start server" ∈ (mainRun true true true false).2 := by
  decide

/-- C7 amended: the process exits with status 0 on every path — clean
drain, forced closure and listener start failure alike. -/
theorem process_always_exits_zero (configOk clientsOk listenFailed drainForced : Bool) :
    (mainRun configOk clientsOk listenFailed drainForced).1 = 0 := by
  cases configOk <;> cases clientsOk <;> simp [mainRun]

/-! ## Registration forwarding
Embeds `UserHandler.Register` (part_001): the decoded JSON body's fields
are forwarded to the backend `CreateUser` call, with the role defaulted
to "customer" exactly when the client sent none. -/

/-- The decoded registration request body. -/
structure RegisterBody where
  name : String
  email : String
  password : String
  role : String
  deriving DecidableEq, Repr

/-- The forwarded backend `CreateUserRequest`. -/
structure CreateUserRequest where
  name : String
  email : String
  password : String
  role : String
  deriving DecidableEq, Repr

/-- `UserHandler.Register`'s forwarding step: default the role to
"customer" when empty, then forward name, email, password and role. -/
def Register (b : RegisterBody) : CreateUserRequest :=
  let role := if b.role = "" then "customer" else b.role
  { name := b.name, email := b.email, password := b.password, role := role }

/-- C10: the forwarded role equals the client-supplied role verbatim
whenever it is non-empty, and "customer" exactly when it is empty; the
other forwarded fields do not depend on the role. -/
theorem register_role_forwarding (b : RegisterBody) (r1 r2 : String) :
    (b.role ≠ "" → (Register b).role = b.role)
    ∧ (b.role = "" → (Register b).role = "customer")
    ∧ (Register { b with role := r1 }).name = (Register { b with role := r2 }).name
    ∧ (Register { b with role := r1 }).email = (Register { b with role := r2 }).email
    ∧ (Register { b with role := r1 }).password = (Register { b with role := r2 }).password := by
  refine ⟨?_, ?_, rfl, rfl, rfl⟩ <;> intro h <;> simp [Register, h]

/-- Witness for C10: the privileged value "admin" is forwarded verbatim,
and an empty role becomes "customer". -/
theorem register_role_forwarding_witness :
    (Register { name := "a", email := "e", password := "p", role := "admin" }).role = "admin"
    ∧ (Register { name := "a", email := "e", password := "p", role := "" }).role = "customer" := by
  constructor
  · exact (register_role_forwarding
      { name := "a", email := "e", password := "p", role := "admin" } "x" "y").1 (by decide)
  · exact (register_role_forwarding
      { name := "a", email := "e", password := "p", role := "" } "x" "y").2.1 rfl

end Gateway

namespace Gateway

/-! ## Pagination parameters
Embeds the page/per_page handling shared by `ProductHandler.ListProducts`,
`ProductHandler.ListCategories` and `UserHandler.SearchUsers`:
`strconv.Atoi` with the error discarded, bounds replacement, and the final
`int32(...)` conversions on the forwarded request. -/

/-- Digits-only check for `strconv.Atoi`. -/
def allDigits (cs : List Char) : Bool := cs.all (fun c => c.isDigit)

/-- Base-10 value of a digit string. -/
def digitsToNat (cs : List Char) : Nat :=
  cs.foldl (fun a c => a * 10 + (c.toNat - 48)) 0

/-- Go `strconv.Atoi` with its error discarded (as the handlers do): 0 on
a syntax error, the clamped int64 extreme on range overflow, otherwise the
parsed value. -/
def goAtoi (s : String) : Int :=
  let cs := s.toList
  let sd : Bool × List Char :=
    match cs with
    | '-' :: rest => (true, rest)
    | '+' :: rest => (false, rest)
    | _ => (false, cs)
  if sd.2.isEmpty || !(allDigits sd.2) then 0
  else
    let n : Int := digitsToNat sd.2
    let v := if sd.1 then -n else n
    if v > 9223372036854775807 then 9223372036854775807
    else if v < -9223372036854775808 then -9223372036854775808
    else v

/-- Go `int32(n)` conversion of a 64-bit value: two's-complement
truncation to 32 bits. -/
def toInt32 (n : Int) : Int := (n + 2147483648) % 4294967296 - 2147483648

/-- The `page` normalization: values below 1 (missing, non-numeric, zero,
negative) are replaced by 1. -/
def pageParam (s : String) : Int :=
  if goAtoi s < 1 then 1 else goAtoi s

/-- The `per_page` normalization: values outside 1..100 (missing,
non-numeric, out of range) are replaced by 10. -/
def perPageParam (s : String) : Int :=
  if goAtoi s < 1 ∨ goAtoi s > 100 then 10 else goAtoi s

/-- The pagination pair as forwarded to the backend request:
`int32(page)` and `int32(perPage)`. -/
def listPagination (pageStr perPageStr : String) : Int × Int :=
  (toInt32 (pageParam pageStr), toInt32 (perPageParam perPageStr))

theorem toInt32_eq_self (n : Int) (h1 : -2147483648 ≤ n) (h2 : n < 2147483648) :
    toInt32 n = n := by
  unfold toInt32
  rw [Int.emod_eq_of_lt (by omega) (by omega)]
  omega

/-- C9 counterexample: the numeric page value 2147483648 passes the
`page < 1` check as an int64 but is forwarded as its int32 truncation
-2147483648, so the forwarded page is not at least 1. -/
theorem page_overflow_forwarded_nonpositive :
    (listPagination "2147483648" "50").1 = -2147483648
    ∧ (listPagination "2147483648" "50").1 < 1
    ∧ (listPagination "2147483648" "50").2 = 50 := by
  refine ⟨?_, ?_, ?_⟩ <;> decide

/-- C9 amended: the forwarded per_page always lies in 1..100, with 10
substituted for missing, non-numeric or out-of-range values; the page is
replaced by 1 when the parsed value is below 1 (missing, non-numeric,
zero, negative), and is forwarded verbatim — hence at least 1 — whenever
the parsed value fits in int32; a numeric page of 2^31 or more is
forwarded as its int32 truncation, which can be non-positive. -/
theorem pagination_bounds (ps pps : String) :
    (1 ≤ (listPagination ps pps).2 ∧ (listPagination ps pps).2 ≤ 100)
    ∧ (goAtoi pps < 1 ∨ goAtoi pps > 100 → (listPagination ps pps).2 = 10)
    ∧ (goAtoi ps < 1 → (listPagination ps pps).1 = 1)
    ∧ (1 ≤ goAtoi ps → goAtoi ps ≤ 2147483647 → (listPagination ps pps).1 = goAtoi ps) := by
  have hpp : 1 ≤ perPageParam pps ∧ perPageParam pps ≤ 100 := by
    unfold perPageParam
    split <;> omega
  have h2a : (listPagination ps pps).2 = perPageParam pps := by
    unfold listPagination
    dsimp only
    exact toInt32_eq_self _ (by omega) (by omega)
  refine ⟨?_, ?_, ?_, ?_⟩
  · rw [h2a]
    exact hpp
  · intro h
    rw [h2a]
    unfold perPageParam
    rw [if_pos h]
  · intro h
    have hp : pageParam ps = 1 := by unfold pageParam; rw [if_pos h]
    unfold listPagination
    dsimp only
    rw [hp]
    decide
  · intro h1 h2
    have hp : pageParam ps = goAtoi ps := by unfold pageParam; rw [if_neg (by omega)]
    unfold listPagination
    dsimp only
    rw [hp]
    exact toInt32_eq_self _ (by omega) (by omega)

/-- Witness for C9 (amended): a zero page becomes 1 and an out-of-range
per_page becomes 10. -/
theorem pagination_bounds_witness :
    (listPagination "0" "101").1 = 1 ∧ (listPagination "0" "101").2 = 10 := by
  constructor
  · exact (pagination_bounds "0" "101").2.2.1 (by decide)
  · exact (pagination_bounds "0" "101").2.1 (by decide)

end Gateway
